import Mathlib

/-!
Shallow embedding of the `trackemdown` geotagging service
(`src/trackemdown/core.py`, `src/trackemdown/main.py`, `src/trackemdown/models.py`).

Modelling conventions:
* Python floats are modelled as exact rationals (`ℚ`); IEEE-754 rounding,
  infinities, NaN and negative zero are outside the model.  Exponent notation
  and underscore digit separators of Python `float(str)` are likewise not
  modelled — no string reaching `float` in this code base contains them
  (the coordinate branch only ever parses substrings of a query whose
  space-stripped form matched `COORD_REGEX`, whose alphabet is digits,
  `-`, `.`, `,` and whitespace).
* `\s` of the regex and the whitespace stripped by `float(str)` are modelled
  as the six ASCII whitespace characters.
* The external collaborators are parameters: `h3fn` stands for
  `h3.latlng_to_cell` and `svc` for the HTTP transport of the single
  `httpx` GET in the address branch.  `HttpResult.requestError` models an
  `httpx.RequestError` (connection error / timeout), `HttpResult.statusError`
  models a non-2xx response, for which `response.raise_for_status()` raises an
  `httpx.HTTPStatusError` — which is *not* a subclass of `httpx.RequestError`,
  so the `except httpx.RequestError` clause does not catch it.
* JSON field values of a geocoding candidate are modelled by `JVal`; Python
  `float(x)` raises `KeyError` for a missing key, `ValueError` for an
  unparsable string and `TypeError` for `None`, lists and dicts.
-/

/-- ASCII digit, the regex class `\d` / `[0-9]`. -/
def isDig (c : Char) : Bool := 48 ≤ c.toNat && c.toNat ≤ 57

/-- ASCII whitespace: the regex class `\s` (and the whitespace that
Python `float(str)` strips), restricted to ASCII. -/
def isWsChar (c : Char) : Bool :=
  c == ' ' || c == '\t' || c == '\n' || c == '\r' || c == '\x0b' || c == '\x0c'

/-- The latitude integer-part group of `COORD_REGEX`:
`([1-8]?[0-9]|[1-9]0)`, required to consume the whole digit run. -/
def latIntOk : List Char → Bool
  | [c] => isDig c
  | [c1, c2] =>
      (49 ≤ c1.toNat && c1.toNat ≤ 56 && isDig c2) ||
      (49 ≤ c1.toNat && c1.toNat ≤ 57 && c2.toNat == 48)
  | _ => false

/-- The longitude integer-part group of `COORD_REGEX`:
`([1]?[0-7]?[0-9]|[1]?[1-8]?[0])`, required to consume the whole digit run. -/
def lonIntOk : List Char → Bool
  | [c] => isDig c
  | [c1, c2] =>
      (c1.toNat == 49 && isDig c2) ||
      (48 ≤ c1.toNat && c1.toNat ≤ 55 && isDig c2) ||
      (c1.toNat == 49 && c2.toNat == 48) ||
      (49 ≤ c1.toNat && c1.toNat ≤ 56 && c2.toNat == 48)
  | [c1, c2, c3] =>
      (c1.toNat == 49 && (48 ≤ c2.toNat && c2.toNat ≤ 55) && isDig c3) ||
      (c1.toNat == 49 && (49 ≤ c2.toNat && c2.toNat ≤ 56) && c3.toNat == 48)
  | _ => false

/-- A signed decimal numeral `-?IP.FP` as captured by one side of
`COORD_REGEX`. -/
structure DecNum where
  neg : Bool
  ip : List Char
  fp : List Char
deriving DecidableEq, Repr

/-- One number of the pair: `-?GROUP\.\d{1,15}` matched against the whole
character list.  The group must consume every digit before the dot (the next
pattern character is the literal dot), and the fractional part must consume
everything that remains. -/
def parseNumBody (neg : Bool) (ipOk : List Char → Bool) (cs : List Char) : Option DecNum :=
  match cs.span (fun c => c != '.') with
  | (ip, '.' :: fp) =>
      if ipOk ip && fp.all isDig && decide (1 ≤ fp.length) && decide (fp.length ≤ 15)
      then some ⟨neg, ip, fp⟩ else none
  | _ => none

/-- See `parseNumBody` for the body after the optional sign. -/
def parseNumPart (ipOk : List Char → Bool) : List Char → Option DecNum
  | '-' :: rest => parseNumBody true ipOk rest
  | cs => parseNumBody false ipOk cs

/-- Matching of the anchored pattern
`^-?LAT\.\d{1,15}\s*,\s*-?LON\.\d{1,15}$` against a character list, returning
the two captured numerals.  The pattern's comma necessarily matches the first
comma of the string (no earlier pattern element can consume a comma), the
`\s*` runs are the maximal whitespace runs adjacent to it, and each numeral
must account for every remaining character. -/
def parseCoordPair (cs : List Char) : Option (DecNum × DecNum) :=
  match cs.span (fun c => c != ',') with
  | (left, ',' :: right) =>
      match parseNumPart latIntOk ((left.reverse.dropWhile isWsChar).reverse),
            parseNumPart lonIntOk (right.dropWhile isWsChar) with
      | some la, some lo => some (la, lo)
      | _, _ => none
  | _ => none

/-- Matching with the semantics of Python's `$` anchor, which matches at the
end of the string or just before a newline that ends the string. -/
def reMatchCoord (cs : List Char) : Option (DecNum × DecNum) :=
  match parseCoordPair cs with
  | some r => some r
  | none => if cs.getLast? == some '\n' then parseCoordPair cs.dropLast else none

/-- `COORD_REGEX.match(s)` of `core.py` (as a Boolean: anchored match
succeeds). -/
def COORD_REGEX_match (s : String) : Bool := (reMatchCoord s.toList).isSome

/-- Python `q.split(',')` on the character list: split at every comma,
keeping empty parts. -/
def splitOnCommaList : List Char → List (List Char)
  | [] => [[]]
  | ',' :: rest => [] :: splitOnCommaList rest
  | c :: rest =>
      match splitOnCommaList rest with
      | g :: gs => (c :: g) :: gs
      | [] => [[c]]

/-- Python `q.split(',')`. -/
def pySplitComma (s : String) : List String :=
  (splitOnCommaList s.toList).map String.mk

/-- `q.replace(" ", "")`: remove every space character (only `' '`, not other
whitespace). -/
def stripAllSpaces (s : String) : String :=
  String.mk (s.toList.filter (fun c => c != ' '))

/-- Value of a digit string, most significant first. -/
def digitsVal (cs : List Char) : ℕ := cs.foldl (fun a c => 10 * a + (c.toNat - 48)) 0

/-- Value of a fractional digit string. -/
def fracPartVal (cs : List Char) : ℚ := (digitsVal cs : ℚ) / ((10 : ℚ) ^ cs.length)

/-- Rational value of a captured numeral. -/
def DecNum.val (d : DecNum) : ℚ :=
  (if d.neg then -1 else 1) * ((digitsVal d.ip : ℚ) + fracPartVal d.fp)

/-- Unsigned body of a Python float literal: `digits`, `digits.digits`,
`digits.` or `.digits` (exponents, `inf`, `nan`, underscores not modelled, see
the header). -/
def pyFloatBody (cs : List Char) : Option ℚ :=
  match cs.span isDig with
  | (ip, []) => if ip.isEmpty then none else some ((digitsVal ip : ℚ))
  | (ip, '.' :: fp) =>
      if fp.all isDig && !(ip.isEmpty && fp.isEmpty)
      then some ((digitsVal ip : ℚ) + fracPartVal fp) else none
  | _ => none

/-- Optional sign of a Python float literal. -/
def pyFloatSigned : List Char → Option ℚ
  | '-' :: rest => (pyFloatBody rest).map (fun x => -x)
  | '+' :: rest => pyFloatBody rest
  | cs => pyFloatBody cs

/-- Python `float(s)` for a string argument: strip surrounding whitespace,
then parse a signed decimal literal; `none` models `ValueError`. -/
def pyFloat (s : String) : Option ℚ :=
  pyFloatSigned (((s.toList.dropWhile isWsChar).reverse.dropWhile isWsChar).reverse)

/-- A JSON value as found in a geocoding candidate's field. -/
inductive JVal where
  | num (x : ℚ)
  | str (s : String)
  | bool (b : Bool)
  | null
  | arr
  | obj
deriving DecidableEq, Repr

/-- One candidate record of the geocoding response (or the single record the
coordinate branch builds): the fields the resolver reads.  A missing field is
`none`. -/
structure Candidate where
  lat : Option JVal
  lon : Option JVal
  display_name : Option String
deriving DecidableEq, Repr

/-- How Python `float(loc[k])` can fail. -/
inductive FloatCastErr where
  | valueErr
  | keyErr
  | typeErr (typeName : String)
deriving DecidableEq, Repr

/-- `float(loc[k])` for a candidate field: `KeyError` when the key is absent,
`ValueError` for an unparsable string, `TypeError` for values that are neither
a string nor a real number. -/
def floatOfField : Option JVal → Except FloatCastErr ℚ
  | none => .error .keyErr
  | some (.num x) => .ok x
  | some (.bool b) => .ok (if b then 1 else 0)
  | some (.str s) =>
      match pyFloat s with
      | some x => .ok x
      | none => .error .valueErr
  | some .null => .error (.typeErr "NoneType")
  | some .arr => .error (.typeErr "list")
  | some .obj => .error (.typeErr "dict")

/-- `models.GeoTagResult`. -/
structure GeoTagResult where
  address : String
  latitude : ℚ
  longitude : ℚ
  geotag : String
deriving DecidableEq, Repr

/-- `models.GeoTagResponse` (the success envelope; `status` defaults to
`"success"`). -/
structure GeoTagResponse where
  status : String
  query : String
  resolution : ℕ
  result : List GeoTagResult
deriving DecidableEq, Repr

/-- The exceptions that can escape `fetch_geotags`: its three typed errors,
plus the `httpx.HTTPStatusError` of `raise_for_status()` (not caught by
`except httpx.RequestError`) and the `TypeError` of `float()` (not caught by
`except (ValueError, KeyError)`). -/
inductive PyExc where
  | InvalidCoordinatesError (msg : String)
  | GeocodingServiceError (msg : String)
  | NoResultsFoundError (msg : String)
  | HTTPStatusError (status : ℕ) (msg : String)
  | TypeError (msg : String)
deriving DecidableEq, Repr

/-- Python `str(e)` of one of the above exceptions: the carried message. -/
def PyExc.pyStr : PyExc → String
  | .InvalidCoordinatesError m => m
  | .GeocodingServiceError m => m
  | .NoResultsFoundError m => m
  | .HTTPStatusError _ m => m
  | .TypeError m => m

/-- Outcome of the single `httpx` GET in the address branch. -/
inductive HttpResult where
  | requestError (msg : String)
  | statusError (status : ℕ) (msg : String)
  | ok (body : List Candidate)
deriving DecidableEq, Repr

/-- The URL built in the address branch. -/
def geocodeUrl (q : String) : String :=
  "https://nominatim.openstreetmap.org/search?format=json&q=" ++ q

/-- Round-half-even, the rounding of Python's fixed-point formatting, on the
exact rational model. -/
def roundHalfEven (x : ℚ) : ℤ :=
  let f := ⌊x⌋
  let r := x - (f : ℚ)
  if r < 1/2 then f
  else if 1/2 < r then f + 1
  else if f % 2 = 0 then f else f + 1

/-- Left-pad a numeral string to six characters with zeros. -/
def pad6 (s : String) : String :=
  String.mk (List.replicate (6 - s.length) '0') ++ s

/-- Python `f"{x:.6f}"` on the rational model. -/
def fmt6 (x : ℚ) : String :=
  let n := (roundHalfEven (|x| * 1000000)).toNat
  (if x < 0 then "-" else "") ++ toString (n / 1000000) ++ "." ++ pad6 (toString (n % 1000000))

/-- The single candidate built by the coordinate branch:
`{"lat": lat, "lon": lon, "display_name": f"Coordinates: {lat:.6f}, {lon:.6f}"}`. -/
def coordCandidate (lat lon : ℚ) : Candidate :=
  ⟨some (.num lat), some (.num lon), some ("Coordinates: " ++ fmt6 lat ++ ", " ++ fmt6 lon)⟩

/-- The candidate-gathering phase of `fetch_geotags` (everything up to the
`if not locations` check): branch on `COORD_REGEX.match(q.replace(" ", ""))`;
in the coordinate branch split the *raw* query at commas and `float` the two
parts (`ValueError`/`IndexError` become `InvalidCoordinatesError`; a split
into any number of parts other than two is the unpacking `ValueError`); in
the address branch perform the GET — a `httpx.RequestError` becomes
`GeocodingServiceError`, while the `httpx.HTTPStatusError` of
`raise_for_status()` on a non-2xx response propagates uncaught. -/
def getLocations (svc : String → HttpResult) (q : String) :
    Except PyExc (List Candidate) :=
  if COORD_REGEX_match (stripAllSpaces q) then
    match pySplitComma q with
    | [latStr, lonStr] =>
        match pyFloat latStr, pyFloat lonStr with
        | some lat, some lon => .ok [coordCandidate lat lon]
        | _, _ => .error (.InvalidCoordinatesError "Invalid coordinate format. Use 'latitude,longitude'.")
    | _ => .error (.InvalidCoordinatesError "Invalid coordinate format. Use 'latitude,longitude'.")
  else
    match svc (geocodeUrl q) with
    | .requestError m =>
        .error (.GeocodingServiceError ("Error connecting to geocoding service: " ++ m))
    | .statusError code m => .error (.HTTPStatusError code m)
    | .ok body => .ok body

/-- The result-building loop of `fetch_geotags`: per candidate,
`float(loc['lat'])` then `float(loc['lon'])`, then the H3 cell;
`ValueError` and `KeyError` skip the candidate, a `TypeError` from `float`
propagates and aborts the whole loop. -/
def buildResults (h3fn : ℚ → ℚ → ℕ → String) (resolution : ℕ) :
    List Candidate → Except PyExc (List GeoTagResult)
  | [] => .ok []
  | loc :: rest =>
    match floatOfField loc.lat with
    | .error (.typeErr n) =>
        .error (.TypeError ("float() argument must be a string or a real number, not '" ++ n ++ "'"))
    | .error _ => buildResults h3fn resolution rest
    | .ok lat =>
      match floatOfField loc.lon with
      | .error (.typeErr n) =>
          .error (.TypeError ("float() argument must be a string or a real number, not '" ++ n ++ "'"))
      | .error _ => buildResults h3fn resolution rest
      | .ok lon =>
        match buildResults h3fn resolution rest with
        | .error e => .error e
        | .ok rs =>
            .ok (⟨loc.display_name.getD "N/A", lat, lon, h3fn lat lon resolution⟩ :: rs)

/-- `core.fetch_geotags(q, resolution)`, parameterised by the two external
collaborators (`h3fn` = `h3.latlng_to_cell`, `svc` = HTTP transport). -/
def fetch_geotags (h3fn : ℚ → ℚ → ℕ → String) (svc : String → HttpResult)
    (q : String) (resolution : ℕ) : Except PyExc (List GeoTagResult) :=
  match getLocations svc q with
  | .error e => .error e
  | .ok locations =>
    if locations = [] then
      .error (.NoResultsFoundError "No results found for the given query.")
    else
      match buildResults h3fn resolution locations with
      | .error e => .error e
      | .ok results =>
        if results = [] then
          .error (.NoResultsFoundError "Geocoding service returned malformed data.")
        else .ok results

/-- A response of the `/geotag` endpoint: the success envelope or an
`HTTPException` with a status code and detail text. -/
inductive ApiResponse where
  | ok (resp : GeoTagResponse)
  | httpError (status : ℕ) (detail : String)
deriving DecidableEq, Repr

/-- `main.get_geotag`: run the resolver and map each exception kind to its
HTTP status, echoing `str(e)` as the detail. -/
def get_geotag (h3fn : ℚ → ℚ → ℕ → String) (svc : String → HttpResult)
    (q : String) (resolution : ℕ) : ApiResponse :=
  match fetch_geotags h3fn svc q resolution with
  | .ok results => .ok ⟨"success", q, resolution, results⟩
  | .error (.InvalidCoordinatesError m) => .httpError 400 m
  | .error (.NoResultsFoundError m) => .httpError 404 m
  | .error (.GeocodingServiceError m) => .httpError 503 m
  | .error e => .httpError 500 ("An unexpected error occurred: " ++ e.pyStr)

/-- Per-candidate outcome of one iteration of the result-building loop:
`.error` aborts the loop, `.ok none` is a skipped candidate, `.ok (some r)`
a produced result. -/
def candOutcome (h3fn : ℚ → ℚ → ℕ → String) (resolution : ℕ) (loc : Candidate) :
    Except PyExc (Option GeoTagResult) :=
  match floatOfField loc.lat with
  | .error (.typeErr n) =>
      .error (.TypeError ("float() argument must be a string or a real number, not '" ++ n ++ "'"))
  | .error _ => .ok none
  | .ok lat =>
    match floatOfField loc.lon with
    | .error (.typeErr n) =>
        .error (.TypeError ("float() argument must be a string or a real number, not '" ++ n ++ "'"))
    | .error _ => .ok none
    | .ok lon => .ok (some ⟨loc.display_name.getD "N/A", lat, lon, h3fn lat lon resolution⟩)

/-- The result a candidate contributes when the loop does not abort. -/
def candResult (h3fn : ℚ → ℚ → ℕ → String) (resolution : ℕ) (loc : Candidate) :
    Option GeoTagResult :=
  match candOutcome h3fn resolution loc with
  | .ok o => o
  | .error _ => none

/-- A fixed stand-in for `h3.latlng_to_cell`, used to instantiate witnesses. -/
def constH3 : ℚ → ℚ → ℕ → String := fun _ _ _ => "8928308280fffff"

/-! ## Helper lemmas -/

/-- The candidate-gathering phase never signals `NoResultsFoundError`
(that error only arises from the two emptiness checks further down). -/
theorem getLocations_ne_noResults (svc : String → HttpResult) (q : String) (m : String) :
    getLocations svc q ≠ .error (.NoResultsFoundError m) := by
  unfold getLocations
  split
  · split
    · split <;> simp
    · simp
  · split <;> simp

/-- The per-candidate outcome can only fail with the uncaught `TypeError`. -/
theorem candOutcome_error_shape (h3fn : ℚ → ℚ → ℕ → String) (resolution : ℕ)
    (c : Candidate) (e : PyExc) (h : candOutcome h3fn resolution c = .error e) :
    ∃ m, e = .TypeError m := by
  unfold candOutcome at h
  rcases h1 : floatOfField c.lat with e1 | lat <;> rw [h1] at h
  · cases e1 <;> simp_all
    exact ⟨_, h.symm⟩
  · rcases h2 : floatOfField c.lon with e2 | lon <;> rw [h2] at h
    · cases e2 <;> simp_all
      exact ⟨_, h.symm⟩
    · simp at h

/-- One unrolling of the result-building loop, phrased through the
per-candidate outcome. -/
theorem buildResults_cons (h3fn : ℚ → ℚ → ℕ → String) (resolution : ℕ)
    (c : Candidate) (rest : List Candidate) :
    buildResults h3fn resolution (c :: rest) =
      match candOutcome h3fn resolution c with
      | .error e => .error e
      | .ok none => buildResults h3fn resolution rest
      | .ok (some r) =>
          match buildResults h3fn resolution rest with
          | .error e => .error e
          | .ok rs => .ok (r :: rs) := by
  rcases h1 : floatOfField c.lat with e1 | lat
  · rw [buildResults, candOutcome, h1]
    cases e1 <;> rfl
  · rcases h2 : floatOfField c.lon with e2 | lon
    · rw [buildResults, candOutcome, h1, h2]
      cases e2 <;> rfl
    · rw [buildResults, candOutcome, h1, h2]

/-- The only exception the result-building loop can raise is the uncaught
`TypeError` of `float`. -/
theorem buildResults_error_shape (h3fn : ℚ → ℚ → ℕ → String) (resolution : ℕ)
    (locs : List Candidate) (e : PyExc) (h : buildResults h3fn resolution locs = .error e) :
    ∃ m, e = .TypeError m := by
  induction locs with
  | nil => simp [buildResults] at h
  | cons c rest ih =>
    rw [buildResults_cons] at h
    rcases h1 : candOutcome h3fn resolution c with e1 | o <;> simp only [h1] at h
    · injection h with h
      subst h
      exact candOutcome_error_shape h3fn resolution c e1 h1
    · cases o with
      | none => exact ih h
      | some r =>
        rcases h3 : buildResults h3fn resolution rest with e3 | rs <;> simp only [h3] at h
        · injection h with h
          subst h
          exact ih h3
        · simp at h

/-- A produced result carries the H3 cell of its own coordinates. -/
theorem candOutcome_some_geotag (h3fn : ℚ → ℚ → ℕ → String) (resolution : ℕ)
    (c : Candidate) (r : GeoTagResult) (h : candOutcome h3fn resolution c = .ok (some r)) :
    r.geotag = h3fn r.latitude r.longitude resolution := by
  unfold candOutcome at h
  rcases h1 : floatOfField c.lat with e1 | lat <;> rw [h1] at h
  · cases e1 <;> simp at h
  · rcases h2 : floatOfField c.lon with e2 | lon <;> rw [h2] at h
    · cases e2 <;> simp at h
    · simp at h
      rw [← h]

/-- Every result the loop produces carries the H3 cell of its own
coordinates at the requested resolution. -/
theorem buildResults_geotag (h3fn : ℚ → ℚ → ℕ → String) (resolution : ℕ)
    (locs : List Candidate) (l : List GeoTagResult)
    (h : buildResults h3fn resolution locs = .ok l) :
    ∀ g ∈ l, g.geotag = h3fn g.latitude g.longitude resolution := by
  induction locs generalizing l with
  | nil =>
    rw [buildResults] at h
    injection h with h
    subst h
    intro g hg
    simp at hg
  | cons c rest ih =>
    rw [buildResults_cons] at h
    rcases h1 : candOutcome h3fn resolution c with e1 | o <;> simp only [h1] at h
    · simp at h
    · cases o with
      | none => exact ih l h
      | some r =>
        rcases h3 : buildResults h3fn resolution rest with e3 | rs <;> simp only [h3] at h
        · simp at h
        · injection h with h
          subst h
          intro g hg
          rcases List.mem_cons.mp hg with hg | hg
          · subst hg
            exact candOutcome_some_geotag h3fn resolution c g h1
          · exact ih rs h3 g hg

/-- Every result the resolver returns carries the H3 cell of its own
coordinates. -/
theorem fetch_geotags_ok_geotag (h3fn : ℚ → ℚ → ℕ → String) (svc : String → HttpResult)
    (q : String) (resolution : ℕ) (l : List GeoTagResult)
    (h : fetch_geotags h3fn svc q resolution = .ok l) :
    ∀ g ∈ l, g.geotag = h3fn g.latitude g.longitude resolution := by
  unfold fetch_geotags at h
  rcases h0 : getLocations svc q with e | locs <;> simp only [h0] at h
  · simp at h
  · by_cases hl : locs = []
    · rw [if_pos hl] at h
      simp at h
    · rw [if_neg hl] at h
      rcases h1 : buildResults h3fn resolution locs with e1 | rs <;> simp only [h1] at h
      · simp at h
      · by_cases hr : rs = []
        · rw [if_pos hr] at h
          simp at h
        · rw [if_neg hr] at h
          injection h with h
          subst h
          exact buildResults_geotag h3fn resolution locs _ h1

/-! ## Evaluation lemmas for the 6-decimal formatting -/

theorem roundHalfEven_natCast (n : ℕ) : roundHalfEven (n : ℚ) = n := by
  unfold roundHalfEven
  norm_num

theorem fmt6_nonneg_exact (x : ℚ) (n : ℕ) (hx : 0 ≤ x) (hn : x * 1000000 = (n : ℚ)) :
    fmt6 x = toString (n / 1000000) ++ "." ++ pad6 (toString (n % 1000000)) := by
  unfold fmt6
  rw [abs_of_nonneg hx, hn, roundHalfEven_natCast, if_neg (not_lt.mpr hx)]
  simp

theorem fmt6_neg_exact (x : ℚ) (n : ℕ) (hx : x < 0) (hn : -x * 1000000 = (n : ℚ)) :
    fmt6 x = "-" ++ toString (n / 1000000) ++ "." ++ pad6 (toString (n % 1000000)) := by
  unfold fmt6
  rw [abs_of_neg hx, hn, roundHalfEven_natCast, if_pos hx]
  simp [String.append_assoc]


/-- C1: a query whose space-stripped form matches the coordinate grammar and
whose raw comma-split parts both parse as floats resolves to exactly one
result: the parsed coordinates, the 6-decimal label, and the H3 cell of that
pair at the requested resolution. -/
theorem C1_coord_query_single_result (h3fn : ℚ → ℚ → ℕ → String)
    (svc : String → HttpResult) (q : String) (resolution : ℕ)
    (latStr lonStr : String) (lat lon : ℚ)
    (hm : COORD_REGEX_match (stripAllSpaces q) = true)
    (hs : pySplitComma q = [latStr, lonStr])
    (ha : pyFloat latStr = some lat) (hb : pyFloat lonStr = some lon) :
    fetch_geotags h3fn svc q resolution =
      .ok [⟨"Coordinates: " ++ fmt6 lat ++ ", " ++ fmt6 lon, lat, lon,
            h3fn lat lon resolution⟩] := by
  have hloc : getLocations svc q = .ok [coordCandidate lat lon] := by
    unfold getLocations
    simp [hm, hs, ha, hb]
  have hbuild : buildResults h3fn resolution [coordCandidate lat lon] =
      .ok [⟨"Coordinates: " ++ fmt6 lat ++ ", " ++ fmt6 lon, lat, lon,
            h3fn lat lon resolution⟩] := by
    simp [buildResults, coordCandidate, floatOfField]
  unfold fetch_geotags
  simp only [hloc, hbuild]
  norm_num

/-- C1 witness: the spec example `resolve("37.422000, -122.084000", 9)`. -/
theorem C1_coord_query_single_result_witness :
    fetch_geotags constH3 (fun _ => HttpResult.requestError "unreachable")
        "37.422000, -122.084000" 9 =
      .ok [⟨"Coordinates: 37.422000, -122.084000", 18711/500, -30521/250,
            "8928308280fffff"⟩] := by
  rw [C1_coord_query_single_result constH3 (fun _ => HttpResult.requestError "unreachable")
      "37.422000, -122.084000" 9 "37.422000" " -122.084000"
      ((37:ℚ) + (422000:ℚ)/(10:ℚ)^6) (-((122:ℚ) + (84000:ℚ)/(10:ℚ)^6))
      (by decide) rfl rfl rfl]
  rw [fmt6_nonneg_exact ((37:ℚ) + (422000:ℚ)/(10:ℚ)^6) 37422000 (by norm_num) (by norm_num)]
  rw [fmt6_neg_exact (-((122:ℚ) + (84000:ℚ)/(10:ℚ)^6)) 122084000 (by norm_num) (by norm_num)]
  norm_num [constH3]
  rfl

/-- Without a grammar match, the resolver runs the address branch: the
candidate list is whatever the HTTP call yields. -/
theorem getLocations_nomatch (svc : String → HttpResult) (q : String)
    (hm : COORD_REGEX_match (stripAllSpaces q) = false) :
    getLocations svc q =
      match svc (geocodeUrl q) with
      | .requestError m =>
          .error (.GeocodingServiceError ("Error connecting to geocoding service: " ++ m))
      | .statusError code m => .error (.HTTPStatusError code m)
      | .ok body => .ok body := by
  unfold getLocations
  rw [if_neg (by simp [hm])]

/-- C2 counterexample: the malformed coordinate-shaped queries of the claim
fail the grammar and are geocoded as addresses — the transport is consulted
and its failure surfaces as `GeocodingServiceError`, not
`InvalidCoordinatesError`. -/
theorem C2_malformed_pair_geocoded_cex :
    fetch_geotags constH3 (fun _ => HttpResult.requestError "connection refused") "91.0,0.0" 9 =
      .error (.GeocodingServiceError "Error connecting to geocoding service: connection refused") ∧
    fetch_geotags constH3 (fun _ => HttpResult.requestError "connection refused") "12.3," 9 =
      .error (.GeocodingServiceError "Error connecting to geocoding service: connection refused") :=
  ⟨rfl, rfl⟩

/-- C2 amended: a coordinate-shaped query that fails the grammar is treated
as an address — the geocoding request is issued and `InvalidCoordinatesError`
is never raised for it. -/
theorem C2_nonmatching_query_uses_address_branch (h3fn : ℚ → ℚ → ℕ → String)
    (svc : String → HttpResult) (q : String) (resolution : ℕ)
    (hm : COORD_REGEX_match (stripAllSpaces q) = false) :
    (∀ m, fetch_geotags h3fn svc q resolution ≠ .error (.InvalidCoordinatesError m)) ∧
    (∀ m, fetch_geotags h3fn (fun _ => HttpResult.requestError m) q resolution =
        .error (.GeocodingServiceError ("Error connecting to geocoding service: " ++ m))) := by
  constructor
  · intro m hEq
    unfold fetch_geotags at hEq
    rw [getLocations_nomatch svc q hm] at hEq
    cases h1 : svc (geocodeUrl q) with
    | requestError s => simp [h1] at hEq
    | statusError c s => simp [h1] at hEq
    | ok body =>
      simp only [h1] at hEq
      by_cases hb : body = []
      · rw [if_pos hb] at hEq
        simp at hEq
      · rw [if_neg hb] at hEq
        rcases h2 : buildResults h3fn resolution body with e2 | rs <;> simp only [h2] at hEq
        · obtain ⟨m2, rfl⟩ := buildResults_error_shape _ _ _ _ h2
          simp at hEq
        · by_cases hr : rs = []
          · rw [if_pos hr] at hEq
            simp at hEq
          · rw [if_neg hr] at hEq
            simp at hEq
  · intro m
    unfold fetch_geotags
    rw [getLocations_nomatch _ q hm]

/-- C2 witness: an out-of-range pair reaches the transport. -/
theorem C2_nonmatching_query_uses_address_branch_witness :
    fetch_geotags constH3 (fun _ => HttpResult.requestError "boom") "91.0,0.0" 9 =
      .error (.GeocodingServiceError "Error connecting to geocoding service: boom") :=
  (C2_nonmatching_query_uses_address_branch constH3
    (fun _ => HttpResult.requestError "boom") "91.0,0.0" 9 (by decide)).2 "boom"

/-- C10: classification strips every space from the query while `float` runs
on the raw comma-split parts, so a query whose space-free form matches the
grammar but whose raw part fails to parse takes the coordinate branch and
raises `InvalidCoordinatesError` (for every transport, i.e. without
geocoding). -/
theorem C10_space_inside_number_invalid (h3fn : ℚ → ℚ → ℕ → String)
    (svc : String → HttpResult) (q : String) (resolution : ℕ)
    (latStr lonStr : String)
    (hm : COORD_REGEX_match (stripAllSpaces q) = true)
    (hs : pySplitComma q = [latStr, lonStr])
    (hf : pyFloat latStr = none ∨ pyFloat lonStr = none) :
    fetch_geotags h3fn svc q resolution =
      .error (.InvalidCoordinatesError "Invalid coordinate format. Use 'latitude,longitude'.") := by
  have hloc : getLocations svc q =
      .error (.InvalidCoordinatesError "Invalid coordinate format. Use 'latitude,longitude'.") := by
    unfold getLocations
    rcases hf with hf | hf
    · rcases h2 : pyFloat lonStr with _ | v <;> simp [hm, hs, hf, h2]
    · rcases h2 : pyFloat latStr with _ | v <;> simp [hm, hs, hf, h2]
  unfold fetch_geotags
  simp only [hloc]

/-- C10 witness: `"3 7.5,10.0"` — its space-free form matches, the raw
latitude part does not parse, and the (otherwise successful) transport is
never consulted. -/
theorem C10_space_inside_number_invalid_witness :
    fetch_geotags constH3
        (fun _ => HttpResult.ok [⟨some (.num 1), some (.num 2), some "X"⟩]) "3 7.5,10.0" 9 =
      .error (.InvalidCoordinatesError "Invalid coordinate format. Use 'latitude,longitude'.") :=
  C10_space_inside_number_invalid constH3
    (fun _ => HttpResult.ok [⟨some (.num 1), some (.num 2), some "X"⟩]) "3 7.5,10.0" 9
    "3 7.5" "10.0" (by decide) rfl (Or.inl rfl)

/-- C9: a candidate whose `lat`/`lon` key holds a value that is neither a
number nor a string (here a JSON array) makes `float` raise `TypeError`,
which the loop's `except (ValueError, KeyError)` does not catch: the whole
batch aborts and the API surfaces it as an unclassified 500. -/
theorem C9_typeerror_aborts_batch :
    fetch_geotags constH3 (fun _ => HttpResult.ok
        [⟨some (.num 1), some (.num 2), some "Good"⟩,
         ⟨some (.num 3), some JVal.arr, some "Bad"⟩]) "Statue of Liberty" 8 =
      .error (.TypeError "float() argument must be a string or a real number, not 'list'") ∧
    get_geotag constH3 (fun _ => HttpResult.ok
        [⟨some (.num 1), some (.num 2), some "Good"⟩,
         ⟨some (.num 3), some JVal.arr, some "Bad"⟩]) "Statue of Liberty" 8 =
      .httpError 500
        "An unexpected error occurred: float() argument must be a string or a real number, not 'list'" :=
  ⟨rfl, rfl⟩

/-- C4 (code bug evidence): a connection failure maps to
`GeocodingServiceError` (503), but a non-2xx response escapes as the uncaught
`httpx.HTTPStatusError` and the API surfaces it as an unclassified 500
instead of 503. -/
theorem C4_non2xx_escapes_unclassified :
    fetch_geotags constH3
        (fun _ => HttpResult.statusError 500 "Server error for url") "Eiffel Tower" 9 =
      .error (.HTTPStatusError 500 "Server error for url") ∧
    get_geotag constH3
        (fun _ => HttpResult.statusError 500 "Server error for url") "Eiffel Tower" 9 =
      .httpError 500 "An unexpected error occurred: Server error for url" ∧
    fetch_geotags constH3
        (fun _ => HttpResult.requestError "Connection refused") "Eiffel Tower" 9 =
      .error (.GeocodingServiceError "Error connecting to geocoding service: Connection refused") ∧
    get_geotag constH3
        (fun _ => HttpResult.requestError "Connection refused") "Eiffel Tower" 9 =
      .httpError 503 "Error connecting to geocoding service: Connection refused" :=
  ⟨rfl, rfl, rfl, rfl⟩

/-- Under the no-abort condition, the loop returns exactly the results of the
candidates that parse, in order. -/
theorem buildResults_filterMap (h3fn : ℚ → ℚ → ℕ → String) (resolution : ℕ)
    (locs : List Candidate)
    (hok : ∀ c ∈ locs, (candOutcome h3fn resolution c).isOk = true) :
    buildResults h3fn resolution locs = .ok (locs.filterMap (candResult h3fn resolution)) := by
  induction locs with
  | nil => simp [buildResults]
  | cons c rest ih =>
    have hc := hok c (List.mem_cons_self c rest)
    have hrest := ih (fun x hx => hok x (List.mem_cons_of_mem c hx))
    rw [buildResults_cons, hrest]
    rcases h1 : candOutcome h3fn resolution c with e | o
    · rw [h1] at hc
      simp [Except.isOk, Except.toBool] at hc
    · cases o with
      | none => simp [List.filterMap_cons, candResult, h1]
      | some r => simp [List.filterMap_cons, candResult, h1]

/-- C6 counterexample: a batch of three candidates, one with a non-numeric
(`null`) `lat` and two well-formed, does not yield two results — the `null`
candidate raises an uncaught `TypeError` and aborts the batch. -/
theorem C6_null_lat_not_skipped_cex :
    fetch_geotags constH3 (fun _ => HttpResult.ok
        [⟨some (.num 1), some (.num 2), some "A"⟩,
         ⟨some JVal.null, some (.num 4), some "B"⟩,
         ⟨some (.num 5), some (.num 6), some "C"⟩]) "Eiffel Tower" 7 =
      .error (.TypeError "float() argument must be a string or a real number, not 'NoneType'") :=
  rfl

/-- C6 amended: candidates whose `lat`/`lon` is missing or is a string that
fails float parsing are skipped (only `ValueError`/`KeyError` recover); when
no candidate raises `TypeError` and at least one parses, the resolver returns
one result per well-formed candidate. -/
theorem C6_string_malformed_candidates_skipped (h3fn : ℚ → ℚ → ℕ → String)
    (q : String) (resolution : ℕ) (locs : List Candidate)
    (hq : COORD_REGEX_match (stripAllSpaces q) = false)
    (hok : ∀ c ∈ locs, (candOutcome h3fn resolution c).isOk = true)
    (hne : locs ≠ [])
    (hfm : locs.filterMap (candResult h3fn resolution) ≠ []) :
    fetch_geotags h3fn (fun _ => HttpResult.ok locs) q resolution =
      .ok (locs.filterMap (candResult h3fn resolution)) := by
  have hloc : getLocations (fun _ => HttpResult.ok locs) q = .ok locs := by
    rw [getLocations_nomatch _ q hq]
  unfold fetch_geotags
  simp only [hloc]
  rw [if_neg hne, buildResults_filterMap h3fn resolution locs hok]
  simp [hfm]

/-- C6 witness: three candidates, the middle one with non-numeric string
`lat`, yield exactly the two well-formed results. -/
theorem C6_string_malformed_candidates_skipped_witness :
    fetch_geotags constH3 (fun _ => HttpResult.ok
        [⟨some (.num 1), some (.num 2), some "A"⟩,
         ⟨some (.str "abc"), some (.num 4), some "B"⟩,
         ⟨some (.num 5), some (.num 6), some "C"⟩]) "Eiffel Tower" 7 =
      .ok [⟨"A", 1, 2, "8928308280fffff"⟩, ⟨"C", 5, 6, "8928308280fffff"⟩] := by
  rw [C6_string_malformed_candidates_skipped constH3 "Eiffel Tower" 7 _
      (by decide) (by decide) (by decide) (by decide)]
  rfl

/-- C7: the endpoint maps each resolver failure kind to its HTTP status —
400 / 404 / 503 for the three typed errors, 500 for anything else — echoing
the exception's message as detail, and wraps success in the
`{status, query, resolution, result}` envelope. -/
theorem C7_api_status_mapping (h3fn : ℚ → ℚ → ℕ → String) (svc : String → HttpResult)
    (q : String) (resolution : ℕ) :
    (∀ rs, fetch_geotags h3fn svc q resolution = .ok rs →
      get_geotag h3fn svc q resolution = .ok ⟨"success", q, resolution, rs⟩) ∧
    (∀ m, fetch_geotags h3fn svc q resolution = .error (.InvalidCoordinatesError m) →
      get_geotag h3fn svc q resolution = .httpError 400 m) ∧
    (∀ m, fetch_geotags h3fn svc q resolution = .error (.NoResultsFoundError m) →
      get_geotag h3fn svc q resolution = .httpError 404 m) ∧
    (∀ m, fetch_geotags h3fn svc q resolution = .error (.GeocodingServiceError m) →
      get_geotag h3fn svc q resolution = .httpError 503 m) ∧
    (∀ c m, fetch_geotags h3fn svc q resolution = .error (.HTTPStatusError c m) →
      get_geotag h3fn svc q resolution = .httpError 500 ("An unexpected error occurred: " ++ m)) ∧
    (∀ m, fetch_geotags h3fn svc q resolution = .error (.TypeError m) →
      get_geotag h3fn svc q resolution = .httpError 500 ("An unexpected error occurred: " ++ m)) := by
  unfold get_geotag
  refine ⟨?_, ?_, ?_, ?_, ?_, ?_⟩
  · intro rs h
    simp [h]
  · intro m h
    simp [h]
  · intro m h
    simp [h]
  · intro m h
    simp [h]
  · intro c m h
    simp [h, PyExc.pyStr]
  · intro m h
    simp [h, PyExc.pyStr]

/-- C7 witness: a connection failure surfaces as 503 with the wrapped cause. -/
theorem C7_api_status_mapping_witness :
    get_geotag constH3 (fun _ => HttpResult.requestError "down") "Big Ben" 12 =
      .httpError 503 "Error connecting to geocoding service: down" :=
  (C7_api_status_mapping constH3 (fun _ => HttpResult.requestError "down") "Big Ben" 12).2.2.2.1
    "Error connecting to geocoding service: down" rfl

/-- C8: on the coordinate branch the outcome is independent of the transport
(no request is made), and every returned result's geotag is the pure function
`h3fn` of its own latitude, longitude and the resolution. -/
theorem C8_coord_branch_deterministic (h3fn : ℚ → ℚ → ℕ → String)
    (svc1 svc2 : String → HttpResult) (q : String) (resolution : ℕ)
    (hm : COORD_REGEX_match (stripAllSpaces q) = true) :
    fetch_geotags h3fn svc1 q resolution = fetch_geotags h3fn svc2 q resolution ∧
    (∀ l, fetch_geotags h3fn svc1 q resolution = .ok l →
      ∀ g ∈ l, g.geotag = h3fn g.latitude g.longitude resolution) := by
  constructor
  · have hgl : getLocations svc1 q = getLocations svc2 q := by
      unfold getLocations
      simp [hm]
    unfold fetch_geotags
    rw [hgl]
  · exact fun l h => fetch_geotags_ok_geotag h3fn svc1 q resolution l h

/-- C8 witness: two different transports, identical output for a coordinate
query. -/
theorem C8_coord_branch_deterministic_witness :
    fetch_geotags constH3 (fun _ => HttpResult.requestError "a") "1.5,2.5" 9 =
      fetch_geotags constH3 (fun _ => HttpResult.ok []) "1.5,2.5" 9 :=
  (C8_coord_branch_deterministic constH3 (fun _ => HttpResult.requestError "a")
    (fun _ => HttpResult.ok []) "1.5,2.5" 9 (by decide)).1

/-- C5: `NoResultsFoundError` arises in exactly two situations — an empty
candidate list ("No results found for the given query.") and a non-empty
candidate list whose results were all skipped ("Geocoding service returned
malformed data.") — and whenever the resolver returns, the result list is
non-empty. -/
theorem C5_noresults_two_situations (h3fn : ℚ → ℚ → ℕ → String)
    (svc : String → HttpResult) (q : String) (resolution : ℕ) :
    (∀ l, fetch_geotags h3fn svc q resolution = .ok l → l ≠ []) ∧
    (fetch_geotags h3fn svc q resolution =
        .error (.NoResultsFoundError "No results found for the given query.") ↔
      getLocations svc q = .ok []) ∧
    (fetch_geotags h3fn svc q resolution =
        .error (.NoResultsFoundError "Geocoding service returned malformed data.") ↔
      ∃ locs, getLocations svc q = .ok locs ∧ locs ≠ [] ∧
        buildResults h3fn resolution locs = .ok []) ∧
    (∀ m, fetch_geotags h3fn svc q resolution = .error (.NoResultsFoundError m) →
      m = "No results found for the given query." ∨
      m = "Geocoding service returned malformed data.") := by
  rcases h0 : getLocations svc q with e | locs
  · have hF : fetch_geotags h3fn svc q resolution = .error e := by
      unfold fetch_geotags
      rw [h0]
    have hNR : ∀ m, e ≠ PyExc.NoResultsFoundError m := fun m hm =>
      absurd (hm ▸ h0) (getLocations_ne_noResults svc q m)
    refine ⟨?_, ⟨?_, ?_⟩, ⟨?_, ?_⟩, ?_⟩
    · intro l hE
      rw [hF] at hE
      simp at hE
    · intro hE
      rw [hF] at hE
      injection hE with hE
      exact absurd hE (hNR _)
    · intro hR
      simp at hR
    · intro hE
      rw [hF] at hE
      injection hE with hE
      exact absurd hE (hNR _)
    · rintro ⟨locs, hR, -, -⟩
      simp at hR
    · intro m hE
      rw [hF] at hE
      injection hE with hE
      exact absurd hE (hNR _)
  · by_cases hl : locs = []
    · subst hl
      have hF : fetch_geotags h3fn svc q resolution =
          .error (.NoResultsFoundError "No results found for the given query.") := by
        unfold fetch_geotags
        rw [h0]
        simp
      refine ⟨?_, ⟨fun _ => rfl, fun _ => hF⟩, ⟨?_, ?_⟩, ?_⟩
      · intro l hE
        rw [hF] at hE
        simp at hE
      · intro hE
        rw [hF] at hE
        injection hE with hE
        injection hE with hE
        simp at hE
      · rintro ⟨locs', hR, hne, -⟩
        injection hR with hR
        exact absurd hR.symm hne
      · intro m hE
        rw [hF] at hE
        injection hE with hE
        injection hE with hE
        exact Or.inl hE.symm
    · rcases h1 : buildResults h3fn resolution locs with e1 | rs
      · obtain ⟨m2, rfl⟩ := buildResults_error_shape _ _ _ _ h1
        have hF : fetch_geotags h3fn svc q resolution = .error (.TypeError m2) := by
          unfold fetch_geotags
          rw [h0]
          simp [hl, h1]
        refine ⟨?_, ⟨?_, ?_⟩, ⟨?_, ?_⟩, ?_⟩
        · intro l hE
          rw [hF] at hE
          simp at hE
        · intro hE
          rw [hF] at hE
          simp at hE
        · intro hR
          injection hR with hR
          exact absurd hR hl
        · intro hE
          rw [hF] at hE
          simp at hE
        · rintro ⟨locs', hR, -, hB⟩
          injection hR with hR
          subst hR
          rw [h1] at hB
          simp at hB
        · intro m hE
          rw [hF] at hE
          simp at hE
      · by_cases hr : rs = []
        · subst hr
          have hF : fetch_geotags h3fn svc q resolution =
              .error (.NoResultsFoundError "Geocoding service returned malformed data.") := by
            unfold fetch_geotags
            rw [h0]
            simp [hl, h1]
          refine ⟨?_, ⟨?_, ?_⟩, ⟨fun _ => ⟨locs, rfl, hl, h1⟩, fun _ => hF⟩, ?_⟩
          · intro l hE
            rw [hF] at hE
            simp at hE
          · intro hE
            rw [hF] at hE
            injection hE with hE
            injection hE with hE
            simp at hE
          · intro hR
            injection hR with hR
            exact absurd hR hl
          · intro m hE
            rw [hF] at hE
            injection hE with hE
            injection hE with hE
            exact Or.inr hE.symm
        · have hF : fetch_geotags h3fn svc q resolution = .ok rs := by
            unfold fetch_geotags
            rw [h0]
            simp [hl, h1, hr]
          refine ⟨?_, ⟨?_, ?_⟩, ⟨?_, ?_⟩, ?_⟩
          · intro l hE
            rw [hF] at hE
            injection hE with hE
            exact hE ▸ hr
          · intro hE
            rw [hF] at hE
            simp at hE
          · intro hR
            injection hR with hR
            exact absurd hR hl
          · intro hE
            rw [hF] at hE
            simp at hE
          · rintro ⟨locs', hR, -, hB⟩
            injection hR with hR
            subst hR
            rw [h1] at hB
            injection hB with hB
            exact absurd hB hr
          · intro m hE
            rw [hF] at hE
            simp at hE

/-- C5 witness: an address query with zero candidates yields the first
`NoResultsFoundError` message. -/
theorem C5_noresults_two_situations_witness :
    fetch_geotags constH3 (fun _ => HttpResult.ok []) "Atlantis" 9 =
      .error (.NoResultsFoundError "No results found for the given query.") :=
  (C5_noresults_two_situations constH3 (fun _ => HttpResult.ok []) "Atlantis" 9).2.1.mpr rfl

/-- Value bound for a digit string: `digitsVal` stays below `10 ^ length`
(generalised over the accumulator). -/
theorem digitsVal_aux_lt (cs : List Char) (h : ∀ c ∈ cs, isDig c = true) :
    ∀ a : ℕ, List.foldl (fun a c => 10 * a + (c.toNat - 48)) a cs < 10 ^ cs.length * (a + 1) := by
  induction cs with
  | nil =>
    intro a
    simp
  | cons c t ih =>
    intro a
    have hc : c.toNat - 48 ≤ 9 := by
      have hd := h c (List.mem_cons_self c t)
      simp [isDig] at hd
      omega
    have ht := ih (fun x hx => h x (List.mem_cons_of_mem c hx)) (10 * a + (c.toNat - 48))
    simp only [List.foldl_cons, List.length_cons]
    calc List.foldl (fun a c => 10 * a + (c.toNat - 48)) (10 * a + (c.toNat - 48)) t
        < 10 ^ t.length * (10 * a + (c.toNat - 48) + 1) := ht
      _ ≤ 10 ^ t.length * (10 * (a + 1)) := Nat.mul_le_mul_left _ (by omega)
      _ = 10 ^ (t.length + 1) * (a + 1) := by ring

/-- A digit string denotes a value below `10 ^ length`. -/
theorem digitsVal_lt (cs : List Char) (h : ∀ c ∈ cs, isDig c = true) :
    digitsVal cs < 10 ^ cs.length := by
  have := digitsVal_aux_lt cs h 0
  simpa [digitsVal] using this

/-- The latitude integer-part group only accepts values up to 90. -/
theorem latIntOk_le (cs : List Char) (h : latIntOk cs = true) : digitsVal cs ≤ 90 := by
  rcases cs with - | ⟨c1, - | ⟨c2, - | ⟨c3, t⟩⟩⟩
  · simp [latIntOk] at h
  · simp [latIntOk, isDig] at h
    simp [digitsVal]
    omega
  · simp [latIntOk, isDig] at h
    simp [digitsVal]
    omega
  · simp [latIntOk] at h

/-- The longitude integer-part group only accepts values up to 180. -/
theorem lonIntOk_le (cs : List Char) (h : lonIntOk cs = true) : digitsVal cs ≤ 180 := by
  rcases cs with - | ⟨c1, - | ⟨c2, - | ⟨c3, - | ⟨c4, t⟩⟩⟩⟩
  · simp [lonIntOk] at h
  · simp [lonIntOk, isDig] at h
    simp [digitsVal]
    omega
  · simp [lonIntOk, isDig] at h
    simp [digitsVal]
    omega
  · simp [lonIntOk, isDig] at h
    simp [digitsVal]
    omega
  · simp [lonIntOk] at h

/-- What a successful `parseNumBody` guarantees. -/
theorem parseNumBody_some (neg : Bool) (ipOk : List Char → Bool) (cs : List Char)
    (d : DecNum) (h : parseNumBody neg ipOk cs = some d) :
    ipOk d.ip = true ∧ (∀ c ∈ d.fp, isDig c = true) ∧
    1 ≤ d.fp.length ∧ d.fp.length ≤ 15 := by
  unfold parseNumBody at h
  split at h
  · split at h
    · injection h with h
      subst h
      rename_i ip fp heq hcond
      simp only [Bool.and_eq_true, decide_eq_true_eq, List.all_eq_true] at hcond
      exact ⟨hcond.1.1.1, hcond.1.1.2, hcond.1.2, hcond.2⟩
    · simp at h
  · simp at h

/-- What a successful `parseNumPart` guarantees. -/
theorem parseNumPart_some (ipOk : List Char → Bool) (cs : List Char) (d : DecNum)
    (h : parseNumPart ipOk cs = some d) :
    ipOk d.ip = true ∧ (∀ c ∈ d.fp, isDig c = true) ∧
    1 ≤ d.fp.length ∧ d.fp.length ≤ 15 := by
  unfold parseNumPart at h
  split at h
  · exact parseNumBody_some _ _ _ _ h
  · exact parseNumBody_some _ _ _ _ h

/-- What a successful `parseCoordPair` guarantees about the two numerals. -/
theorem parseCoordPair_some (cs : List Char) (la lo : DecNum)
    (h : parseCoordPair cs = some (la, lo)) :
    (latIntOk la.ip = true ∧ (∀ c ∈ la.fp, isDig c = true) ∧
      1 ≤ la.fp.length ∧ la.fp.length ≤ 15) ∧
    (lonIntOk lo.ip = true ∧ (∀ c ∈ lo.fp, isDig c = true) ∧
      1 ≤ lo.fp.length ∧ lo.fp.length ≤ 15) := by
  unfold parseCoordPair at h
  split at h
  · split at h
    · injection h with h
      simp only [Prod.mk.injEq] at h
      obtain ⟨rfl, rfl⟩ := h
      rename_i la' lo' heq1 heq2
      exact ⟨parseNumPart_some _ _ _ heq1, parseNumPart_some _ _ _ heq2⟩
    · simp at h
  · simp at h

/-- A regex match is a `parseCoordPair` success on the string or (via the
`$`-before-final-newline rule) on the string without its last character. -/
theorem reMatchCoord_some (cs : List Char) (la lo : DecNum)
    (h : reMatchCoord cs = some (la, lo)) :
    parseCoordPair cs = some (la, lo) ∨ parseCoordPair cs.dropLast = some (la, lo) := by
  unfold reMatchCoord at h
  split at h
  · rename_i r heq
    injection h with h
    exact Or.inl (h ▸ heq)
  · split at h
    · exact Or.inr h
    · simp at h

/-- A captured numeral with integer part bounded by `B` has absolute value
below `B + 1`. -/
theorem decNum_val_bound (d : DecNum) (B : ℕ) (hip : digitsVal d.ip ≤ B)
    (hfp : ∀ c ∈ d.fp, isDig c = true) : |d.val| < (B : ℚ) + 1 := by
  have h2 : fracPartVal d.fp < 1 := by
    unfold fracPartVal
    rw [div_lt_one (by positivity)]
    have := digitsVal_lt d.fp hfp
    exact_mod_cast this
  have h1 : (0:ℚ) ≤ fracPartVal d.fp := by
    unfold fracPartVal
    positivity
  have h3 : (digitsVal d.ip : ℚ) ≤ B := by exact_mod_cast hip
  have hx0 : (0:ℚ) ≤ (digitsVal d.ip : ℚ) + fracPartVal d.fp := by positivity
  have hx : (digitsVal d.ip : ℚ) + fracPartVal d.fp < (B:ℚ) + 1 := by linarith
  unfold DecNum.val
  cases hn : d.neg
  · rw [if_neg (by simp), one_mul, abs_of_nonneg hx0]
    exact hx
  · rw [if_pos rfl, neg_one_mul, abs_neg, abs_of_nonneg hx0]
    exact hx

/-- C3 (amended): every string the grammar accepts decomposes into two
decimals with 1–15 fractional digits whose integer parts are at most 90
(first) and 180 (second); hence the first number's magnitude is below 91 and
the second's below 181 (magnitudes in `(90, 91)` and `(180, 181)` are
accepted, so the claimed bounds of 90/180 fail; integer parts beyond 90/180
are rejected by the grammar). -/
theorem C3_grammar_bounds (s : String) (la lo : DecNum)
    (h : reMatchCoord s.toList = some (la, lo)) :
    |la.val| < 91 ∧ |lo.val| < 181 ∧
    digitsVal la.ip ≤ 90 ∧ digitsVal lo.ip ≤ 180 ∧
    1 ≤ la.fp.length ∧ la.fp.length ≤ 15 ∧ 1 ≤ lo.fp.length ∧ lo.fp.length ≤ 15 := by
  rcases reMatchCoord_some _ _ _ h with h' | h' <;>
  · obtain ⟨⟨hla, hfa, h1a, h2a⟩, ⟨hlo, hfo, h1o, h2o⟩⟩ := parseCoordPair_some _ _ _ h'
    have ba := decNum_val_bound la 90 (latIntOk_le _ hla) hfa
    have bo := decNum_val_bound lo 180 (lonIntOk_le _ hlo) hfo
    norm_num at ba bo
    exact ⟨ba, bo, latIntOk_le _ hla, lonIntOk_le _ hlo, h1a, h2a, h1o, h2o⟩

/-- C3 counterexample: `"90.5,0.0"` is accepted by the grammar although its
first number, 90.5, lies outside `[-90, 90]` — so out-of-range pairs are not
all rejected either. -/
theorem C3_range_cex :
    COORD_REGEX_match "90.5,0.0" = true ∧
    pySplitComma "90.5,0.0" = ["90.5", "0.0"] ∧
    pyFloat "90.5" = some ((181:ℚ)/2) ∧ ¬((181:ℚ)/2 ≤ 90) := by
  refine ⟨by decide, rfl, ?_, by norm_num⟩
  have h : pyFloat "90.5" = some ((90:ℚ) + (5:ℚ)/(10:ℚ)^1) := rfl
  rw [h]
  norm_num

/-- C3 witness: the bounds instantiated at `"90.5,0.0"`. -/
theorem C3_grammar_bounds_witness :
    |DecNum.val ⟨false, ['9','0'], ['5']⟩| < 91 ∧
    |DecNum.val ⟨false, ['0'], ['0']⟩| < 181 ∧
    digitsVal ['9','0'] ≤ 90 ∧ digitsVal ['0'] ≤ 180 ∧
    1 ≤ (['5'] : List Char).length ∧ (['5'] : List Char).length ≤ 15 ∧
    1 ≤ (['0'] : List Char).length ∧ (['0'] : List Char).length ≤ 15 :=
  C3_grammar_bounds "90.5,0.0" ⟨false, ['9','0'], ['5']⟩ ⟨false, ['0'], ['0']⟩ (by decide)
